import Mathlib

/-!
Shallow embedding of the aura-clock application core
(src/src/components/ClockApp.tsx) and proofs about its
world-clock registry, theme store, formatters, location fallback and
fullscreen visibility state machine.
-/

set_option maxHeartbeats 1000000

/-! ### World clock registry (ClockApp.tsx, both variants) -/

/-- WorldClock record from ClockApp.tsx: id, timezone, label. -/
structure WorldClock where
  id : String
  timezone : String
  label : String
deriving DecidableEq, Repr

/-- One entry of the fixed popularTimezones catalog. -/
structure TimezoneOption where
  timezone : String
  label : String
deriving DecidableEq, Repr

/-- The fixed catalog of preset timezones from ClockApp.tsx. -/
def popularTimezones : List TimezoneOption :=
  [ ⟨"America/New_York", "New York"⟩,
    ⟨"America/Los_Angeles", "Los Angeles"⟩,
    ⟨"America/Chicago", "Chicago"⟩,
    ⟨"Europe/London", "London"⟩,
    ⟨"Europe/Paris", "Paris"⟩,
    ⟨"Europe/Berlin", "Berlin"⟩,
    ⟨"Asia/Tokyo", "Tokyo"⟩,
    ⟨"Asia/Shanghai", "Shanghai"⟩,
    ⟨"Asia/Dubai", "Dubai"⟩,
    ⟨"Asia/Singapore", "Singapore"⟩,
    ⟨"Australia/Sydney", "Sydney"⟩,
    ⟨"Pacific/Auckland", "Auckland"⟩ ]

/-- The component state touched by the registry operations: the ordered
worldClocks list and the isAddingClock modal flag. -/
structure ClockState where
  worldClocks : List WorldClock
  isAddingClock : Bool
deriving DecidableEq, Repr

/-- addWorldClock from ClockApp.tsx.  The source reads the host clock with
Date.now() and uses its decimal string as the id, appends the new entry and
closes the add prompt.  The Date.now() sample is the explicit argument
now, and its toString() is Nat.repr.  There is no duplicate check and no
failure path in the source. -/
def addWorldClock (now : Nat) (timezone label : String) (s : ClockState) : ClockState :=
  { s with
    worldClocks := s.worldClocks ++ [⟨Nat.repr now, timezone, label⟩],
    isAddingClock := false }

/-- removeWorldClock from ClockApp.tsx: filter out the clocks whose id
equals the argument. -/
def removeWorldClock (entryId : String) (s : ClockState) : ClockState :=
  { s with worldClocks := s.worldClocks.filter (fun c => c.id != entryId) }

/-- availableTimezones from ClockApp.tsx: the catalog filtered to the
zones not already present in the registry. -/
def availableTimezones (s : ClockState) : List TimezoneOption :=
  popularTimezones.filter
    (fun tz => !(s.worldClocks.any (fun wc => wc.timezone == tz.timezone)))

/-! ### Theme store (first variant of ClockApp.tsx) -/

/-- Theme record of the first variant.  The background field is an
Option String because at runtime the preset literals and the useState
default omit it, so reading it yields the JS value undefined, modelled
as none. -/
structure Theme where
  background : Option String
  cardBackground : String
  textColor : String
deriving DecidableEq, Repr

/-- A presets array element: a Theme plus a name. -/
structure NamedPreset where
  name : String
  background : Option String
  cardBackground : String
  textColor : String
deriving DecidableEq, Repr

/-- The presets list of the first variant.  Each literal in the source
omits the background field, hence background is none. -/
def presets : List NamedPreset :=
  [ ⟨"Ocean", none, "#5b6abf", "#e8d5d0"⟩,
    ⟨"Midnight", none, "#1e293b", "#e2e8f0"⟩,
    ⟨"Forest", none, "#166534", "#bbf7d0"⟩,
    ⟨"Sunset", none, "#b45309", "#fef3c7"⟩,
    ⟨"Berry", none, "#7c3aed", "#e9d5ff"⟩ ]

/-- applyPreset from ClockApp.tsx: setTheme with a record built only from
the preset fields; the prior theme is not consulted. -/
def applyPreset (preset : NamedPreset) (_prev : Theme) : Theme :=
  { background := preset.background,
    cardBackground := preset.cardBackground,
    textColor := preset.textColor }

/-! ### Per-timezone formatter (ClockApp.tsx formatTimeForTimezone)

The source calls time.toLocaleTimeString with a timeZone option.  The
host Intl implementation resolves the identifier against its timezone
database and, per ECMA-402, throws a RangeError for an unrecognized
identifier; the source does not catch it.  The host database is the
explicit parameter tzdb, mapping an identifier to its UTC offset in
minutes at the given instant, or none when the identifier is unknown;
a thrown RangeError is the error result. -/

/-- Error raised by the per-timezone formatter. -/
inductive FormatError where
  | invalidTimezone
deriving DecidableEq, Repr

/-- Two-digit zero padding used by the hour and minute fields. -/
def pad2 (n : Nat) : String :=
  if n < 10 then "0" ++ Nat.repr n else Nat.repr n

/-- formatTimeForTimezone from the first variant (24-hour HH:MM): resolve
the zone through the host database, fail on an unknown identifier,
otherwise render the wall-clock hours and minutes at the resolved
offset. -/
def formatTimeForTimezone (tzdb : String → Option Int) (time : Nat)
    (timezone : String) : Except FormatError String :=
  match tzdb timezone with
  | none => Except.error FormatError.invalidTimezone
  | some offsetMinutes =>
      let wallSeconds := (((time : Int) + offsetMinutes * 60) % 86400).toNat
      Except.ok (pad2 (wallSeconds / 3600) ++ ":" ++ pad2 (wallSeconds % 3600 / 60))

/-! ### Decimal representation facts needed for id uniqueness -/

/-- Decimal digit list of a natural number, most significant first. -/
def decDigits (n : Nat) : List Char :=
  if _h : n < 10 then [Nat.digitChar n]
  else
    have : n / 10 < n := Nat.div_lt_self (by omega) (by omega)
    decDigits (n / 10) ++ [Nat.digitChar (n % 10)]

theorem decDigits_eq_of_lt {n : Nat} (h : n < 10) :
    decDigits n = [Nat.digitChar n] := by
  rw [decDigits]
  simp [h]

theorem decDigits_eq_of_ge {n : Nat} (h : ¬n < 10) :
    decDigits n = decDigits (n / 10) ++ [Nat.digitChar (n % 10)] := by
  rw [decDigits]
  simp [h]

theorem decDigits_ne_nil (n : Nat) : decDigits n ≠ [] := by
  by_cases h : n < 10
  · rw [decDigits_eq_of_lt h]
    simp
  · rw [decDigits_eq_of_ge h]
    simp

theorem toDigitsCore_eq_decDigits (f : Nat) :
    ∀ (n : Nat) (ds : List Char), n ≤ f →
      Nat.toDigitsCore 10 (f + 1) n ds = decDigits n ++ ds := by
  induction f with
  | zero =>
      intro n ds h
      have hn : n = 0 := Nat.le_zero.mp h
      subst hn
      simp [Nat.toDigitsCore, decDigits]
  | succ f ih =>
      intro n ds h
      rw [Nat.toDigitsCore]
      by_cases h10 : n < 10
      · have hdiv : n / 10 = 0 := Nat.div_eq_of_lt h10
        have hmod : n % 10 = n := Nat.mod_eq_of_lt h10
        simp only [hdiv, hmod, if_pos rfl]
        rw [decDigits_eq_of_lt h10]
        simp
      · have hdiv0 : n / 10 ≠ 0 := by
          intro hc
          exact h10 (by omega)
        have hlt : n / 10 < n := Nat.div_lt_self (by omega) (by omega)
        have hle : n / 10 ≤ f := by omega
        simp only [if_neg hdiv0]
        rw [ih (n / 10) (Nat.digitChar (n % 10) :: ds) hle]
        rw [decDigits_eq_of_ge h10]
        simp

theorem natRepr_eq_decDigits (n : Nat) : Nat.repr n = (decDigits n).asString := by
  show (Nat.toDigits 10 n).asString = (decDigits n).asString
  unfold Nat.toDigits
  rw [toDigitsCore_eq_decDigits n n [] (Nat.le_refl n)]
  simp

theorem digitChar_inj_fin : ∀ a b : Fin 10,
    Nat.digitChar a.val = Nat.digitChar b.val → a = b := by decide

theorem decDigits_inj (m n : Nat) (h : decDigits m = decDigits n) : m = n := by
  by_cases hm : m < 10 <;> by_cases hn : n < 10
  · rw [decDigits_eq_of_lt hm, decDigits_eq_of_lt hn] at h
    have hd : Nat.digitChar m = Nat.digitChar n := by
      simpa using h
    exact congrArg Fin.val (digitChar_inj_fin ⟨m, hm⟩ ⟨n, hn⟩ hd)
  · exfalso
    rw [decDigits_eq_of_lt hm, decDigits_eq_of_ge hn] at h
    have hlen := congrArg List.length h
    have hne := decDigits_ne_nil (n / 10)
    have hpos : 0 < (decDigits (n / 10)).length := List.length_pos.mpr hne
    simp only [List.length_singleton, List.length_append] at hlen
    omega
  · exfalso
    rw [decDigits_eq_of_ge hm, decDigits_eq_of_lt hn] at h
    have hlen := congrArg List.length h
    have hne := decDigits_ne_nil (m / 10)
    have hpos : 0 < (decDigits (m / 10)).length := List.length_pos.mpr hne
    simp only [List.length_singleton, List.length_append] at hlen
    omega
  · rw [decDigits_eq_of_ge hm, decDigits_eq_of_ge hn] at h
    have h2 := congrArg List.reverse h
    simp only [List.reverse_append, List.reverse_cons, List.reverse_nil,
      List.nil_append, List.cons_append] at h2
    injection h2 with hd ht
    have hmod : m % 10 = n % 10 := by
      have := digitChar_inj_fin ⟨m % 10, Nat.mod_lt m (by omega)⟩
        ⟨n % 10, Nat.mod_lt n (by omega)⟩ hd
      exact congrArg Fin.val this
    have hdiveq : decDigits (m / 10) = decDigits (n / 10) :=
      List.reverse_injective ht
    have : m / 10 < m := Nat.div_lt_self (by omega) (by omega)
    have hdiv : m / 10 = n / 10 := decDigits_inj (m / 10) (n / 10) hdiveq
    omega
termination_by m

theorem natRepr_inj {m n : Nat} (h : Nat.repr m = Nat.repr n) : m = n := by
  rw [natRepr_eq_decDigits, natRepr_eq_decDigits] at h
  exact decDigits_inj m n (congrArg String.data h)

/-! ### Location lookup (second variant of ClockApp.tsx, fetchLocation) -/

/-- JSON payload fields read from the reverse-geocoding response.  A
field can be absent or empty, both falsy in the source. -/
structure GeoData where
  city : Option String
  locality : Option String
  principalSubdivision : Option String
  countryCode : Option String
deriving DecidableEq, Repr

/-- The JS expression a-or-else-b for an optional string field: the right
operand is used when the field is absent or the empty string. -/
def jsOrElse (a : Option String) (b : String) : String :=
  match a with
  | none => b
  | some s => if s.isEmpty then b else s

/-- JS String.replace with a string pattern replaces only the first
occurrence; this is the character-list worker for the underscore case. -/
def replaceFirstUnderscoreAux : List Char → List Char
  | [] => []
  | c :: cs => if c = '_' then ' ' :: cs else c :: replaceFirstUnderscoreAux cs

/-- The timeZone.replace call of the source: replace the first underscore
of the identifier by a space. -/
def replaceFirstUnderscore (s : String) : String :=
  ⟨replaceFirstUnderscoreAux s.data⟩

/-- The host environment observed by one fetchLocation run: whether the
geolocation API exists, the position outcome (none means the error
callback ran, for example on permission denial), the fetch outcome
(none means the fetch or the JSON parse threw), and the viewer timezone
resolved by Intl. -/
structure LocationEnv where
  geolocationSupported : Bool
  position : Option (Int × Int)
  fetchResult : Option GeoData
  localTimeZone : String
deriving DecidableEq, Repr

/-- fetchLocation from the second variant, as the string finally stored in
locationName for a completed run. -/
def fetchLocation (env : LocationEnv) : String :=
  if !env.geolocationSupported then "Location not supported"
  else
    match env.position with
    | none => replaceFirstUnderscore env.localTimeZone
    | some _ =>
        match env.fetchResult with
        | none => replaceFirstUnderscore env.localTimeZone
        | some data =>
            let city := jsOrElse data.city
              (jsOrElse data.locality
                (jsOrElse data.principalSubdivision "Unknown Location"))
            let country := jsOrElse data.countryCode ""
            city ++ ", " ++ country

/-! ### Fullscreen visibility state machine (ClockApp.tsx, both variants)

The inactivity effect re-runs whenever isFullscreen, isSettingsOpen or
isAddingClock changes: its cleanup clears the pending setTimeout, and in
fullscreen it immediately shows the controls and schedules a fresh
3000 ms timeout whose callback closes over the flag values current at
scheduling time.  Out of fullscreen it shows the controls and leaves no
timer.  The mousemove listener exists only while the fullscreen branch
of the effect is active.  Time is abstracted: the timeout firing is an
event that can occur only while a timeout is pending. -/

/-- The values captured by the setTimeout callback closure, plus the
delay it was scheduled with. -/
structure TimerClosure where
  capturedFullscreen : Bool
  capturedSettingsOpen : Bool
  capturedAddingClock : Bool
  delayMs : Nat
deriving DecidableEq, Repr

/-- The visibility-related component state: the four useState flags the
machine reads and writes, the pending timeout if any, and the
console-error log. -/
structure VisState where
  isFullscreen : Bool
  showControls : Bool
  isSettingsOpen : Bool
  isAddingClock : Bool
  pendingTimeout : Option TimerClosure
  errorLog : List String
deriving DecidableEq, Repr

/-- The closure captured when the effect or the mousemove handler
schedules the 3000 ms hide timeout. -/
def scheduleHide (s : VisState) : TimerClosure :=
  ⟨s.isFullscreen, s.isSettingsOpen, s.isAddingClock, 3000⟩

/-- One run of the inactivity effect body, after its cleanup cleared any
pending timeout: in fullscreen, show controls and schedule the hide
timeout; otherwise show controls with no timer. -/
def runVisibilityEffect (s : VisState) : VisState :=
  if s.isFullscreen then
    { s with showControls := true, pendingTimeout := some (scheduleHide s) }
  else
    { s with showControls := true, pendingTimeout := none }

/-- The external events driving the visibility machine. -/
inductive Event where
  | mouseMove
  | timeoutFires
  | openSettings
  | closeSettings
  | openAddClock
  | closeAddClock
  | fullscreenChange (hostFullscreen : Bool)
  | toggleFullscreen (hostAccepts : Bool)
deriving DecidableEq, Repr

/-- One step of the visibility machine.  A React state set to its current
value causes no re-render and no effect re-run, hence the guards on the
flag events.  The timeout callback tests the captured flags, exactly as
the source closure does. -/
def step (s : VisState) : Event → VisState
  | Event.mouseMove =>
      if s.isFullscreen then
        { s with showControls := true, pendingTimeout := some (scheduleHide s) }
      else s
  | Event.timeoutFires =>
      match s.pendingTimeout with
      | none => s
      | some c =>
          if c.capturedFullscreen && !c.capturedSettingsOpen
              && !c.capturedAddingClock then
            { s with showControls := false, pendingTimeout := none }
          else
            { s with pendingTimeout := none }
  | Event.openSettings =>
      if s.isSettingsOpen then s
      else runVisibilityEffect { s with isSettingsOpen := true }
  | Event.closeSettings =>
      if s.isSettingsOpen then runVisibilityEffect { s with isSettingsOpen := false }
      else s
  | Event.openAddClock =>
      if s.isAddingClock then s
      else runVisibilityEffect { s with isAddingClock := true }
  | Event.closeAddClock =>
      if s.isAddingClock then runVisibilityEffect { s with isAddingClock := false }
      else s
  | Event.fullscreenChange b =>
      if s.isFullscreen = b then s
      else runVisibilityEffect { s with isFullscreen := b }
  | Event.toggleFullscreen hostAccepts =>
      if hostAccepts then s
      else { s with errorLog := s.errorLog ++ ["Fullscreen error"] }

/-- The mount state: not fullscreen, controls visible, no modal, no
timer.  The first effect run is the identity here. -/
def initialVisState : VisState :=
  ⟨false, true, false, false, none, []⟩

/-- The states the component can actually be in. -/
inductive Reachable : VisState → Prop where
  | init : Reachable initialVisState
  | next : ∀ {s : VisState} (e : Event), Reachable s → Reachable (step s e)

/-- Machine invariant: a pending timeout always captured the current flag
values and a 3000 ms delay; out of fullscreen the controls are visible
and no timer is pending; while a modal is open the controls are
visible. -/
def VisInv (s : VisState) : Prop :=
  (∀ c : TimerClosure, s.pendingTimeout = some c →
      c.capturedFullscreen = s.isFullscreen ∧
      c.capturedSettingsOpen = s.isSettingsOpen ∧
      c.capturedAddingClock = s.isAddingClock ∧
      c.delayMs = 3000) ∧
  (s.isFullscreen = false → s.showControls = true ∧ s.pendingTimeout = none) ∧
  ((s.isSettingsOpen = true ∨ s.isAddingClock = true) → s.showControls = true)

theorem visInv_initial : VisInv initialVisState := by
  refine ⟨?_, ?_, ?_⟩ <;> simp [initialVisState, VisInv]

theorem visInv_runVisibilityEffect (s : VisState) (h : VisInv s) :
    VisInv (runVisibilityEffect s) := by
  obtain ⟨h1, h2, h3⟩ := h
  unfold runVisibilityEffect
  by_cases hf : s.isFullscreen
  · rw [if_pos hf]
    refine ⟨?_, ?_, ?_⟩
    · intro c hc
      simp only [Option.some.injEq] at hc
      subst hc
      simp [scheduleHide]
    · intro hnf
      simp only at hnf
      rw [hf] at hnf
      exact absurd hnf (by simp)
    · intro _
      rfl
  · rw [if_neg hf]
    exact ⟨by intro c hc; simp at hc, fun _ => ⟨rfl, rfl⟩, fun _ => rfl⟩

theorem visInv_step (s : VisState) (e : Event) (h : VisInv s) :
    VisInv (step s e) := by
  obtain ⟨fs, sc, so, ac, pt, log⟩ := s
  obtain ⟨h1, h2, h3⟩ := h
  rcases pt with _ | ⟨cf, cs2, ca, d⟩
  · cases e <;>
      first
      | (rename_i b
         cases b <;> cases fs <;> cases so <;> cases ac <;>
           simp_all [step, runVisibilityEffect, scheduleHide, VisInv])
      | (cases fs <;> cases so <;> cases ac <;>
           simp_all [step, runVisibilityEffect, scheduleHide, VisInv])
  · cases e <;>
      first
      | (rename_i b
         cases b <;> cases fs <;> cases so <;> cases ac <;>
           cases cf <;> cases cs2 <;> cases ca <;>
           simp_all [step, runVisibilityEffect, scheduleHide, VisInv])
      | (cases fs <;> cases so <;> cases ac <;>
           cases cf <;> cases cs2 <;> cases ca <;>
           simp_all [step, runVisibilityEffect, scheduleHide, VisInv])

theorem visInv_reachable {s : VisState} (h : Reachable s) : VisInv s := by
  induction h with
  | init => exact visInv_initial
  | next e _ ih => exact visInv_step _ e ih

/-! ### Helper reduction lemmas -/

theorem step_timeoutFires (s : VisState) :
    step s Event.timeoutFires =
      match s.pendingTimeout with
      | none => s
      | some c =>
          if c.capturedFullscreen && !c.capturedSettingsOpen
              && !c.capturedAddingClock then
            { s with showControls := false, pendingTimeout := none }
          else
            { s with pendingTimeout := none } := rfl

theorem runVisibilityEffect_isFullscreen (s : VisState) :
    (runVisibilityEffect s).isFullscreen = s.isFullscreen := by
  unfold runVisibilityEffect
  split <;> rfl

/-- A batch of add calls, each with its own Date.now() sample. -/
structure AddRequest where
  now : Nat
  timezone : String
  label : String
deriving DecidableEq, Repr

/-- Run a sequence of addWorldClock calls left to right. -/
def runAdds (s : ClockState) (reqs : List AddRequest) : ClockState :=
  reqs.foldl (fun st r => addWorldClock r.now r.timezone r.label st) s

theorem runAdds_worldClocks (reqs : List AddRequest) (s : ClockState) :
    (runAdds s reqs).worldClocks =
      s.worldClocks ++ reqs.map (fun r => ⟨Nat.repr r.now, r.timezone, r.label⟩) := by
  induction reqs generalizing s with
  | nil => simp [runAdds]
  | cons r rest ih =>
      rw [show runAdds s (r :: rest)
            = runAdds (addWorldClock r.now r.timezone r.label s) rest from rfl]
      rw [ih]
      simp [addWorldClock]

/-! ### Claim theorems -/

/-- C1 counterexample: starting from the empty registry, add of
Europe/London followed immediately by a second add of Europe/London
succeeds: the second call changes the registry and leaves two entries
for the same timezone, so it neither fails with DuplicateTimezone nor
leaves the registry unchanged. -/
theorem addWorldClock_duplicate_add_succeeds :
    (addWorldClock 2000 "Europe/London" "London 2"
        (addWorldClock 1000 "Europe/London" "London" ⟨[], false⟩)).worldClocks.map
      (fun c => c.timezone) = ["Europe/London", "Europe/London"]
    ∧ addWorldClock 2000 "Europe/London" "London 2"
        (addWorldClock 1000 "Europe/London" "London" ⟨[], false⟩)
      ≠ addWorldClock 1000 "Europe/London" "London" ⟨[], false⟩ := by
  constructor
  · rfl
  · decide

/-- C1 amended: addWorldClock never fails and performs no duplicate
check: for every registry state it appends an entry carrying the
Date.now() string id and closes the add prompt, even when the timezone
is already present. -/
theorem addWorldClock_appends_unconditionally (now : Nat) (z l : String)
    (s : ClockState) :
    (addWorldClock now z l s).worldClocks
        = s.worldClocks ++ [⟨Nat.repr now, z, l⟩]
    ∧ (addWorldClock now z l s).isAddingClock = false :=
  ⟨rfl, rfl⟩

/-- C2: for every instant and every identifier the host timezone database
does not recognize, formatTimeForTimezone fails with the InvalidTimezone
error instead of substituting a zone or returning a value. -/
theorem formatTimeForTimezone_unknown_zone_errors
    (tzdb : String → Option Int) (t : Nat) (z : String) (h : tzdb z = none) :
    formatTimeForTimezone tzdb t z = Except.error FormatError.invalidTimezone := by
  unfold formatTimeForTimezone
  rw [h]

/-- C2 witness: a concrete database knowing only Asia/Tokyo rejects an
unknown identifier. -/
theorem formatTimeForTimezone_unknown_zone_errors_witness :
    (fun z => if z == "Asia/Tokyo" then some (540 : Int) else none)
        "Mars/Olympus_Mons" = none
    ∧ formatTimeForTimezone
        (fun z => if z == "Asia/Tokyo" then some (540 : Int) else none) 0
        "Mars/Olympus_Mons" = Except.error FormatError.invalidTimezone :=
  ⟨rfl, formatTimeForTimezone_unknown_zone_errors _ 0 "Mars/Olympus_Mons" rfl⟩

/-- C3: applyPreset replaces the whole color record at once: every field
of the result is exactly the preset field, independently of the prior
theme. -/
theorem applyPreset_replaces_all_fields (prev : Theme) (p : NamedPreset) :
    applyPreset p prev =
      { background := p.background, cardBackground := p.cardBackground,
        textColor := p.textColor }
    ∧ ∀ prev2 : Theme, applyPreset p prev = applyPreset p prev2 :=
  ⟨rfl, fun _ => rfl⟩

/-- C4 counterexample: two adds sharing one Date.now() millisecond sample
produce two registry entries with the same id, so ids are not always
unique. -/
theorem addWorldClock_same_millisecond_ids_collide :
    (addWorldClock 1000 "Asia/Tokyo" "Tokyo"
        (addWorldClock 1000 "Europe/London" "London" ⟨[], false⟩)).worldClocks.map
      (fun c => c.id) = ["1000", "1000"]
    ∧ ¬ (addWorldClock 1000 "Asia/Tokyo" "Tokyo"
        (addWorldClock 1000 "Europe/London" "London" ⟨[], false⟩)).worldClocks.Pairwise
          (fun a b => a.id ≠ b.id) := by
  constructor
  · rfl
  · decide

/-- C4 amended: ids are unique provided the adds occur at pairwise
distinct Date.now() readings: any add sequence with distinct clock
samples starting from the empty registry yields pairwise distinct
entry ids. -/
theorem addWorldClock_distinct_times_unique_ids (b : Bool)
    (reqs : List AddRequest)
    (h : reqs.Pairwise (fun r1 r2 => r1.now ≠ r2.now)) :
    ((runAdds ⟨[], b⟩ reqs).worldClocks.map (fun c => c.id)).Pairwise (· ≠ ·) := by
  rw [runAdds_worldClocks]
  simp only [List.nil_append, List.map_map]
  rw [List.pairwise_map]
  exact List.Pairwise.imp (fun hne heq => hne (natRepr_inj heq)) h

/-- C4 witness: two adds at distinct milliseconds produce distinct ids. -/
theorem addWorldClock_distinct_times_unique_ids_witness :
    ([⟨1000, "Europe/London", "London"⟩, ⟨1001, "Asia/Tokyo", "Tokyo"⟩] :
        List AddRequest).Pairwise (fun r1 r2 => r1.now ≠ r2.now)
    ∧ ((runAdds ⟨[], false⟩
          [⟨1000, "Europe/London", "London"⟩,
           ⟨1001, "Asia/Tokyo", "Tokyo"⟩]).worldClocks.map
        (fun c => c.id)).Pairwise (· ≠ ·) :=
  ⟨by decide, addWorldClock_distinct_times_unique_ids false _ (by decide)⟩

/-- C5: availableTimezones is exactly the catalog minus the registered
zones, so it never contains a registered timezone; and adding a
catalog entry then removing the created id restores the entry to the
available set. -/
theorem availableTimezones_spec_and_roundtrip (s : ClockState)
    (e : TimezoneOption) :
    (e ∈ availableTimezones s ↔
      e ∈ popularTimezones ∧ ∀ wc ∈ s.worldClocks, wc.timezone ≠ e.timezone)
    ∧ (∀ now : Nat, e ∈ availableTimezones s →
        e ∈ availableTimezones
          (removeWorldClock (Nat.repr now)
            (addWorldClock now e.timezone e.label s))) := by
  have hmem : ∀ t : ClockState, e ∈ availableTimezones t ↔
      e ∈ popularTimezones ∧ ∀ wc ∈ t.worldClocks, wc.timezone ≠ e.timezone := by
    intro t
    unfold availableTimezones
    rw [List.mem_filter]
    simp [List.any_eq_true]
  constructor
  · exact hmem s
  · intro now h
    rw [hmem] at h
    rw [hmem]
    refine ⟨h.1, ?_⟩
    intro wc hwc
    simp only [removeWorldClock, addWorldClock, List.mem_filter,
      List.mem_append, List.mem_singleton] at hwc
    obtain ⟨hin, hid⟩ := hwc
    cases hin with
    | inl hin => exact h.2 wc hin
    | inr hin =>
        exfalso
        subst hin
        simp at hid
  
/-- C5 witness: from the empty registry, Asia/Tokyo is available, and
adding it then removing the created entry leaves it available again. -/
theorem availableTimezones_spec_and_roundtrip_witness :
    (⟨"Asia/Tokyo", "Tokyo"⟩ : TimezoneOption) ∈ availableTimezones ⟨[], false⟩
    ∧ (⟨"Asia/Tokyo", "Tokyo"⟩ : TimezoneOption) ∈ availableTimezones
        (removeWorldClock (Nat.repr 1000)
          (addWorldClock 1000 "Asia/Tokyo" "Tokyo" ⟨[], false⟩)) :=
  ⟨by decide,
    (availableTimezones_spec_and_roundtrip ⟨[], false⟩ ⟨"Asia/Tokyo", "Tokyo"⟩).2
      1000 (by decide)⟩

/-- C6: removeWorldClock keeps exactly the entries with a different id,
is the identity when no entry carries the id, never errors, and
preserves the relative order of the remaining entries. -/
theorem removeWorldClock_spec (s : ClockState) (entryId : String) :
    ((∀ c ∈ s.worldClocks, c.id ≠ entryId) → removeWorldClock entryId s = s)
    ∧ (∀ c : WorldClock, c ∈ (removeWorldClock entryId s).worldClocks ↔
        c ∈ s.worldClocks ∧ c.id ≠ entryId)
    ∧ List.Sublist (removeWorldClock entryId s).worldClocks s.worldClocks := by
  refine ⟨?_, ?_, ?_⟩
  · intro h
    unfold removeWorldClock
    have hf : s.worldClocks.filter (fun c => c.id != entryId) = s.worldClocks := by
      rw [List.filter_eq_self]
      intro a ha
      simpa using h a ha
    rw [hf]
  · intro c
    simp [removeWorldClock, List.mem_filter]
  · exact List.filter_sublist s.worldClocks

/-- C6 witness: removing an id not present leaves a one-entry registry
unchanged. -/
theorem removeWorldClock_spec_witness :
    removeWorldClock "2" ⟨[⟨"1", "Europe/London", "London"⟩], false⟩ =
      ⟨[⟨"1", "Europe/London", "London"⟩], false⟩ :=
  (removeWorldClock_spec ⟨[⟨"1", "Europe/London", "London"⟩], false⟩ "2").1
    (by decide)

/-- C7: in every reachable state with a modal open the controls are
visible, and the idle timeout firing there keeps them visible: a
modal opened in fullscreen suppresses the pending hide. -/
theorem modal_open_controls_stay_visible (s : VisState) (hr : Reachable s)
    (hm : s.isSettingsOpen = true ∨ s.isAddingClock = true) :
    s.showControls = true
    ∧ (step s Event.timeoutFires).showControls = true := by
  obtain ⟨h1, _h2, h3⟩ := visInv_reachable hr
  have hvis := h3 hm
  refine ⟨hvis, ?_⟩
  rw [step_timeoutFires]
  cases hp : s.pendingTimeout with
  | none => simpa using hvis
  | some c =>
      obtain ⟨_hc1, hc2, hc3, _⟩ := h1 c hp
      have hguard : (c.capturedFullscreen && !c.capturedSettingsOpen
          && !c.capturedAddingClock) = false := by
        cases hm with
        | inl h => simp [hc2.trans h]
        | inr h => simp [hc3.trans h]
      simp [hguard, hvis]

/-- C7 witness: enter fullscreen, open the settings modal, let the
timeout fire: the controls stay visible. -/
theorem modal_open_controls_stay_visible_witness :
    (step (step initialVisState (Event.fullscreenChange true))
        Event.openSettings).showControls = true
    ∧ (step (step (step initialVisState (Event.fullscreenChange true))
        Event.openSettings) Event.timeoutFires).showControls = true :=
  modal_open_controls_stay_visible _
    (Reachable.next Event.openSettings
      (Reachable.next (Event.fullscreenChange true) Reachable.init))
    (Or.inl (by decide))

/-- C8 counterexample: with the geolocation API unsupported the lookup
fails but the display shows the literal Location not supported, not the
timezone fallback; and the fallback replace touches only the first
underscore, so an identifier with two underscores keeps its second
underscore. -/
theorem fetchLocation_fallback_counterexample :
    fetchLocation ⟨false, none, none, "America/North_Dakota/New_Salem"⟩ =
        "Location not supported"
    ∧ "Location not supported" ≠
        replaceFirstUnderscore "America/North_Dakota/New_Salem"
    ∧ replaceFirstUnderscore "America/North_Dakota/New_Salem" =
        "America/North Dakota/New_Salem"
    ∧ "America/North Dakota/New_Salem" ≠ "America/North Dakota/New Salem" := by
  refine ⟨rfl, by decide, rfl, by decide⟩

/-- C8 amended: when the geolocation API is missing the display shows
Location not supported; when the position callback errors (permission
denied) or the reverse-geocode fetch throws, the display falls back to
the viewer timezone with only the first underscore replaced by a
space. -/
theorem fetchLocation_fallback_spec (env : LocationEnv) :
    (env.geolocationSupported = false →
      fetchLocation env = "Location not supported")
    ∧ (env.geolocationSupported = true → env.position = none →
      fetchLocation env = replaceFirstUnderscore env.localTimeZone)
    ∧ (∀ pos : Int × Int, env.geolocationSupported = true →
      env.position = some pos → env.fetchResult = none →
      fetchLocation env = replaceFirstUnderscore env.localTimeZone) := by
  refine ⟨?_, ?_, ?_⟩
  · intro h
    simp [fetchLocation, h]
  · intro h hp
    simp [fetchLocation, h, hp]
  · intro pos h hp hf
    simp [fetchLocation, h, hp, hf]

/-- C8 witness: the three failure shapes at concrete environments. -/
theorem fetchLocation_fallback_spec_witness :
    fetchLocation ⟨false, none, none, "Asia/Ho_Chi_Minh"⟩ =
        "Location not supported"
    ∧ fetchLocation ⟨true, none, none, "Asia/Ho_Chi_Minh"⟩ =
        replaceFirstUnderscore "Asia/Ho_Chi_Minh"
    ∧ fetchLocation ⟨true, some (10, 106), none, "Asia/Ho_Chi_Minh"⟩ =
        replaceFirstUnderscore "Asia/Ho_Chi_Minh" :=
  ⟨(fetchLocation_fallback_spec _).1 rfl,
   (fetchLocation_fallback_spec _).2.1 rfl rfl,
   (fetchLocation_fallback_spec _).2.2 (10, 106) rfl rfl rfl⟩

/-- C9: the toggle action never touches the visibility state: its step
leaves isFullscreen, showControls and the pending timer unchanged, a
declined request only appends a log line, and the only event that can
change isFullscreen is the host fullscreenchange signal. -/
theorem toggleFullscreen_leaves_visibility_unchanged (s : VisState)
    (hostAccepts : Bool) (e : Event) :
    (step s (Event.toggleFullscreen hostAccepts)).isFullscreen = s.isFullscreen
    ∧ (step s (Event.toggleFullscreen hostAccepts)).showControls = s.showControls
    ∧ (step s (Event.toggleFullscreen hostAccepts)).pendingTimeout = s.pendingTimeout
    ∧ (step s (Event.toggleFullscreen false)).errorLog =
        s.errorLog ++ ["Fullscreen error"]
    ∧ ((step s e).isFullscreen = s.isFullscreen
        ∨ ∃ b : Bool, e = Event.fullscreenChange b) := by
  refine ⟨?_, ?_, ?_, ?_, ?_⟩
  · cases hostAccepts <;> rfl
  · cases hostAccepts <;> rfl
  · cases hostAccepts <;> rfl
  · rfl
  · cases e with
    | mouseMove =>
        refine Or.inl ?_
        simp only [step]
        split <;> rfl
    | timeoutFires =>
        refine Or.inl ?_
        rw [step_timeoutFires]
        cases s.pendingTimeout with
        | none => rfl
        | some c =>
            split <;> try rfl
            split <;> rfl
    | openSettings =>
        refine Or.inl ?_
        simp only [step]
        split
        · rfl
        · rw [runVisibilityEffect_isFullscreen]
    | closeSettings =>
        refine Or.inl ?_
        simp only [step]
        split
        · rw [runVisibilityEffect_isFullscreen]
        · rfl
    | openAddClock =>
        refine Or.inl ?_
        simp only [step]
        split
        · rfl
        · rw [runVisibilityEffect_isFullscreen]
    | closeAddClock =>
        refine Or.inl ?_
        simp only [step]
        split
        · rw [runVisibilityEffect_isFullscreen]
        · rfl
    | fullscreenChange b => exact Or.inr ⟨b, rfl⟩
    | toggleFullscreen a =>
        refine Or.inl ?_
        cases a <;> rfl

/-- C10: closing a modal while fullscreen forces the controls visible
and schedules a fresh 3000 ms hide timeout whose firing (with no other
modal open) hides the controls one idle period later; entering
fullscreen performs the same restart. -/
theorem modal_close_restarts_idle_cycle (s : VisState) :
    (s.isFullscreen = true → s.isSettingsOpen = true →
      (step s Event.closeSettings).showControls = true
      ∧ (step s Event.closeSettings).pendingTimeout =
          some ⟨true, false, s.isAddingClock, 3000⟩
      ∧ (s.isAddingClock = false →
          (step (step s Event.closeSettings) Event.timeoutFires).showControls
            = false))
    ∧ (s.isFullscreen = true → s.isAddingClock = true →
      (step s Event.closeAddClock).showControls = true
      ∧ (step s Event.closeAddClock).pendingTimeout =
          some ⟨true, s.isSettingsOpen, false, 3000⟩
      ∧ (s.isSettingsOpen = false →
          (step (step s Event.closeAddClock) Event.timeoutFires).showControls
            = false))
    ∧ (s.isFullscreen = false →
      (step s (Event.fullscreenChange true)).showControls = true
      ∧ (step s (Event.fullscreenChange true)).pendingTimeout =
          some ⟨true, s.isSettingsOpen, s.isAddingClock, 3000⟩) := by
  refine ⟨?_, ?_, ?_⟩
  · intro hf ho
    refine ⟨?_, ?_, ?_⟩
    · simp [step, runVisibilityEffect, scheduleHide, hf, ho]
    · simp [step, runVisibilityEffect, scheduleHide, hf, ho]
    · intro hac
      simp [step, runVisibilityEffect, scheduleHide, hf, ho, hac]
  · intro hf ho
    refine ⟨?_, ?_, ?_⟩
    · simp [step, runVisibilityEffect, scheduleHide, hf, ho]
    · simp [step, runVisibilityEffect, scheduleHide, hf, ho]
    · intro hso
      simp [step, runVisibilityEffect, scheduleHide, hf, ho, hso]
  · intro hf
    constructor
    · simp [step, runVisibilityEffect, scheduleHide, hf]
    · simp [step, runVisibilityEffect, scheduleHide, hf]

/-- C10 witness: a fullscreen state with the settings modal open, then
the close and the timeout firing; and entering fullscreen from the
start state. -/
theorem modal_close_restarts_idle_cycle_witness :
    ((step ⟨true, true, true, false, some ⟨true, true, false, 3000⟩, []⟩
        Event.closeSettings).showControls = true
      ∧ (step ⟨true, true, true, false, some ⟨true, true, false, 3000⟩, []⟩
          Event.closeSettings).pendingTimeout = some ⟨true, false, false, 3000⟩
      ∧ (step (step ⟨true, true, true, false, some ⟨true, true, false, 3000⟩, []⟩
          Event.closeSettings) Event.timeoutFires).showControls = false)
    ∧ ((step initialVisState (Event.fullscreenChange true)).showControls = true
      ∧ (step initialVisState (Event.fullscreenChange true)).pendingTimeout =
          some ⟨true, false, false, 3000⟩) :=
  ⟨⟨((modal_close_restarts_idle_cycle _).1 rfl rfl).1,
    ((modal_close_restarts_idle_cycle _).1 rfl rfl).2.1,
    ((modal_close_restarts_idle_cycle _).1 rfl rfl).2.2 rfl⟩,
   (modal_close_restarts_idle_cycle initialVisState).2.2 rfl⟩
